import Mathlib

/-!
# Verification of the movies CRUD service (`src/apps/movies/routes.py`)

Shallow embedding of the route handlers of `apps/movies/routes.py`:
the relational store becomes an explicit `Store` value (a list of movies,
a list of directors, and the next identifier the store will assign), the
ORM query chaining of `get_movies` becomes sequential `List.filter`
refinement, and `HTTPException` becomes an explicit error result.

Python truthiness is modelled exactly where the source uses it:
`if title:` holds iff the parameter is present and nonempty, `if min_year:`
iff present and nonzero, while `if rating is not None:` holds iff present
(the source really mixes the two styles).  `update_movie`'s not-found check
tests the input identifier (`if not movie_id:`), not the lookup result, as
in the source; the consequence of a missed lookup on a nonzero id (a
`setattr`/`refresh` on `None`, an unhandled exception) is modelled by the
`crash` result.

Ratings (`float` columns and query parameters in the source) are modelled
as `Rat`; the SQL `LIKE` textual comparison of `rating` becomes equality of
the `toString` renderings.
-/

/-- An `HTTPException(status_code, detail)` raised by a handler. -/
structure HTTPError where
  status : Nat
  detail : String
deriving Repr, DecidableEq

/-- A persisted `models.Movie` row (`id` is assigned by the store). -/
structure Movie where
  id : Int
  title : String
  year : Int
  rating : Rat
  runtime : Int
  genre : String
  director_id : Int
deriving Repr, DecidableEq

/-- A persisted `Director` row; only its `id` matters to this router. -/
structure Director where
  id : Int
deriving Repr, DecidableEq

/-- Modelled from the spec: `schemas.MovieCreate` (the schema module is not
under `src/`); §6 lists the create payload fields
`title, year, rating, runtime, genre, director_id`, all consumed by
`create_movie`. -/
structure MovieCreate where
  title : String
  year : Int
  rating : Rat
  runtime : Int
  genre : String
  director_id : Int
deriving Repr, DecidableEq

/-- Modelled from the spec: the partial update payload seen through
`movie_update.dict(exclude_unset=True)` (the schema module is not under
`src/`); §4.2: "applies only the fields explicitly present in the update
payload".  `none` means the field was not present in the request. -/
structure MovieUpdate where
  title : Option String := none
  year : Option Int := none
  rating : Option Rat := none
  runtime : Option Int := none
  genre : Option String := none
  director_id : Option Int := none
deriving Repr, DecidableEq

/-- The relational store: the movies table, the directors table, and the
identifier the store will assign to the next inserted movie. -/
structure Store where
  movies : List Movie
  directors : List Director
  nextId : Int
deriving Repr, DecidableEq

/-- Does the pattern match the leading characters of the haystack? -/
def leadMatch : List Char → List Char → Bool
  | [], _ => true
  | _ :: _, [] => false
  | p :: ps, h :: hs => p == h && leadMatch ps hs

/-- Is `p` a contiguous sub-list of `h`? -/
def subList (p : List Char) : List Char → Bool
  | [] => leadMatch p []
  | c :: hs => leadMatch p (c :: hs) || subList p hs

/-- Case-insensitive substring test: the model of
`Movie.title.ilike(f"%{t}%")`. -/
def ilikeContains (hay pat : String) : Bool :=
  subList pat.toLower.toList hay.toLower.toList

/-- `rating == r  OR  rating LIKE f"{r}"`: exact numeric equality or
textual-representation equality of the stored rating against the query
value. -/
def ratingMatches (stored r : Rat) : Bool :=
  stored == r || toString stored == toString r

/-- Python truthiness of an optional string parameter (`if title:`):
present and nonempty. -/
def pyTruthyStr (o : Option String) : Bool :=
  o.getD "" != ""

/-- Python truthiness of an optional integer parameter (`if min_year:`):
present and nonzero. -/
def pyTruthyInt (o : Option Int) : Bool :=
  o.getD 0 != 0

/-- `GET /movies`: `get_movies(title, rating, min_year, max_year, db)`.
The ORM query starts from the whole table and is narrowed by one
`query.filter(...)` per parameter that passes the source's presence test:
truthiness for `title`, `min_year`, `max_year`; `is not None` for
`rating`. -/
def get_movies (title : Option String) (rating : Option Rat)
    (min_year max_year : Option Int) (db : List Movie) : List Movie :=
  let query := db
  let query := if pyTruthyStr title then
      query.filter (fun m => ilikeContains m.title (title.getD "")) else query
  let query := if rating.isSome then
      query.filter (fun m => ratingMatches m.rating (rating.getD 0)) else query
  let query := if pyTruthyInt min_year then
      query.filter (fun m => decide (min_year.getD 0 ≤ m.year)) else query
  let query := if pyTruthyInt max_year then
      query.filter (fun m => decide (m.year ≤ max_year.getD 0)) else query
  query

/-- The single conjoined predicate the chained filters of `get_movies`
amount to: each criterion constrains the record iff the source's presence
test for it passes, and the four applied criteria are ANDed. -/
def matchesApplied (title : Option String) (rating : Option Rat)
    (min_year max_year : Option Int) (m : Movie) : Bool :=
  (!pyTruthyStr title || ilikeContains m.title (title.getD "")) &&
  (!rating.isSome || ratingMatches m.rating (rating.getD 0)) &&
  (!pyTruthyInt min_year || decide (min_year.getD 0 ≤ m.year)) &&
  (!pyTruthyInt max_year || decide (m.year ≤ max_year.getD 0))

/-- Modelled from the spec's words (the claim-side predicate, for
refinement comparison only): "returns exactly the subset of M whose
records satisfy every supplied criterion" — every `some` criterion is
applied, regardless of truthiness. -/
def specMatches (title : Option String) (rating : Option Rat)
    (min_year max_year : Option Int) (m : Movie) : Bool :=
  (match title with | some t => ilikeContains m.title t | none => true) &&
  (match rating with | some r => ratingMatches m.rating r | none => true) &&
  (match min_year with | some y => decide (y ≤ m.year) | none => true) &&
  (match max_year with | some y => decide (m.year ≤ y) | none => true)

/-- `GET /movies/{movie_id}`: `get_movie` — first row with the given id,
else `404 "Movie not found"`. -/
def get_movie (movie_id : Int) (s : Store) : Except HTTPError Movie :=
  match s.movies.find? (fun m => m.id == movie_id) with
  | none => .error ⟨404, "Movie not found"⟩
  | some m => .ok m

/-- `POST /movies`: `create_movie` — `400 "Invalid director_id"` when no
director row has the payload's `director_id` (the exception is raised
before anything touches the movies table, so the store comes back
unchanged); otherwise a fresh `Movie` with the store-assigned id is
appended and echoed back. -/
def create_movie (movie : MovieCreate) (s : Store) :
    Except HTTPError Movie × Store :=
  if (s.directors.find? (fun d => d.id == movie.director_id)).isNone then
    (.error ⟨400, "Invalid director_id"⟩, s)
  else
    let db_movie : Movie :=
      { id := s.nextId, title := movie.title, year := movie.year,
        rating := movie.rating, runtime := movie.runtime,
        genre := movie.genre, director_id := movie.director_id }
    (.ok db_movie,
      { s with movies := s.movies ++ [db_movie], nextId := s.nextId + 1 })

/-- The `setattr` loop of `update_movie`: each field present in the
payload overwrites the stored field; absent fields are untouched.  The
payload carries no `id`, so the id is never overwritten. -/
def applyUpdate (u : MovieUpdate) (m : Movie) : Movie :=
  { m with
    title := u.title.getD m.title,
    year := u.year.getD m.year,
    rating := u.rating.getD m.rating,
    runtime := u.runtime.getD m.runtime,
    genre := u.genre.getD m.genre,
    director_id := u.director_id.getD m.director_id }

/-- Replace the first row carrying the given id (the row `find?` located
and `setattr` mutated in place). -/
def replaceById (i : Int) (m' : Movie) : List Movie → List Movie
  | [] => []
  | m :: rest =>
      if m.id == i then m' :: rest else m :: replaceById i m' rest

/-- Response of `PUT /movies/{movie_id}`.  `crash` models the unhandled
exception (`setattr`/`db.refresh` on `None`) the source runs into when the
lookup misses on a nonzero id: no `HTTPException` is raised there. -/
inductive UpdateResp where
  | ok (movie : Movie)
  | err (e : HTTPError)
  | crash
deriving Repr, DecidableEq

/-- `PUT /movies/{movie_id}`: `update_movie` — looks up the row, but the
not-found branch tests `if not movie_id:` (truthiness of the INPUT id),
exactly as the source does. -/
def update_movie (movie_id : Int) (movie_update : MovieUpdate) (s : Store) :
    UpdateResp × Store :=
  let db_movie := s.movies.find? (fun m => m.id == movie_id)
  if movie_id == 0 then
    (.err ⟨404, "Movie not found"⟩, s)
  else
    match db_movie with
    | none => (.crash, s)
    | some m =>
        let m1 := applyUpdate movie_update m
        (.ok m1, { s with movies := replaceById movie_id m1 s.movies })

/-- `DELETE /movies/{movie_id}`: `delete_movie` — `404` when the lookup
misses (raised before anything is deleted, so the store comes back
unchanged), otherwise the found row is removed and no body is returned
(HTTP 204, hence `Unit` on success). -/
def delete_movie (movie_id : Int) (s : Store) : Except HTTPError Unit × Store :=
  match s.movies.find? (fun m => m.id == movie_id) with
  | none => (.error ⟨404, "Movie not found"⟩, s)
  | some _ =>
      (.ok (), { s with movies := s.movies.eraseP (fun m => m.id == movie_id) })

/-- Store-assigned ids in sequence: every id positive and no id repeated
(what the autoincrementing primary key guarantees). -/
def idsOK : List Movie → Bool
  | [] => true
  | m :: rest => 0 < m.id && rest.all (fun x => x.id != m.id) && idsOK rest

/-- Well-formed store: the movies table carries store-assigned ids. -/
def Store.WF (s : Store) : Bool :=
  idsOK s.movies

/-! ## Concrete fixtures -/

/-- A persisted director with id 1. -/
def dir1 : Director := ⟨1⟩

/-- Fixture: the id-1 movie of the spec's §8 example. -/
def m1 : Movie :=
  { id := 1, title := "The Matrix", year := 1999, rating := mkRat 87 10,
    runtime := 136, genre := "Sci-Fi", director_id := 1 }

/-- Fixture: the id-2 movie of the spec's §8 example. -/
def m2 : Movie :=
  { id := 2, title := "Inception", year := 2010, rating := mkRat 88 10,
    runtime := 148, genre := "Sci-Fi", director_id := 1 }

/-- Fixture store holding `m1`, `m2` and director 1. -/
def sW : Store := { movies := [m1, m2], directors := [dir1], nextId := 3 }

/-- Fixture: a movie with a negative year (years are signed integers in
the model, as in the `Integer` column of the source). -/
def mA : Movie :=
  { id := 1, title := "A", year := -1, rating := mkRat 1 1,
    runtime := 100, genre := "g", director_id := 1 }

/-- Fixture: another negative-year movie, for the composition claim. -/
def mC : Movie :=
  { id := 3, title := "C", year := -5, rating := mkRat 2 1,
    runtime := 80, genre := "h", director_id := 1 }

/-- Fixture: a nonzero-rating movie, for the zero-rating filter claim. -/
def mB : Movie :=
  { id := 2, title := "B", year := 2000, rating := mkRat 5 1,
    runtime := 90, genre := "g", director_id := 1 }

/-- Fixture: a movie whose id is 0 (not reachable through `create_movie`,
which assigns positive ids; used to probe the update handler's falsy-id
check). -/
def mZero : Movie :=
  { id := 0, title := "Zero", year := 1950, rating := mkRat 6 1,
    runtime := 70, genre := "g", director_id := 1 }

/-- Fixture store holding only the id-0 movie. -/
def sZero : Store := { movies := [mZero], directors := [dir1], nextId := 1 }

/-- Fixture store with an empty movies table. -/
def sEmpty : Store := { movies := [], directors := [dir1], nextId := 1 }

/-- Fixture create payload whose `director_id` (99) matches no director. -/
def pBad : MovieCreate :=
  { title := "X", year := 2001, rating := mkRat 7 1, runtime := 100,
    genre := "g", director_id := 99 }

/-- Fixture create payload whose `director_id` (1) exists. -/
def pGood : MovieCreate :=
  { title := "Y", year := 2005, rating := mkRat 9 1, runtime := 110,
    genre := "g", director_id := 1 }

/-- Fixture partial update payload: only `title` and `rating` present. -/
def uTR : MovieUpdate := { title := some "Renamed", rating := some (mkRat 9 1) }

/-! ## Helper lemmas -/

/-- A conditional narrowing step equals one filter whose predicate is
trivial when the condition is off. -/
theorem cond_filter {α : Type} (c : Bool) (p : α → Bool) (l : List α) :
    (if c then l.filter p else l) = l.filter (fun a => !c || p a) := by
  cases c <;> simp

/-- In a table of store-assigned ids, every row's id is positive. -/
theorem id_pos_of_idsOK :
    ∀ {l : List Movie} {m : Movie}, idsOK l = true → m ∈ l → 0 < m.id := by
  intro l
  induction l with
  | nil => intro m _ hm; cases hm
  | cons a rest ih =>
      intro m hok hm
      simp only [idsOK, Bool.and_eq_true, decide_eq_true_eq,
        List.all_eq_true, bne_iff_ne] at hok
      obtain ⟨⟨hpos, hall⟩, hrest⟩ := hok
      cases hm with
      | head => exact hpos
      | tail _ hm' => exact ih hrest hm'

/-- In a table of store-assigned ids, looking a member row up by its own
id finds exactly that row. -/
theorem find?_self_of_idsOK :
    ∀ {l : List Movie} {m : Movie}, idsOK l = true → m ∈ l →
      l.find? (fun x => x.id == m.id) = some m := by
  intro l
  induction l with
  | nil => intro m _ hm; cases hm
  | cons a rest ih =>
      intro m hok hm
      simp only [idsOK, Bool.and_eq_true, decide_eq_true_eq,
        List.all_eq_true, bne_iff_ne] at hok
      obtain ⟨⟨hpos, hall⟩, hrest⟩ := hok
      cases hm with
      | head => simp [List.find?_cons]
      | tail _ hm' =>
          have hne : ¬ ((a.id == m.id) = true) := by
            simp only [beq_iff_eq]
            exact fun h => hall m hm' h.symm
          rw [List.find?_cons_of_neg (p := fun x => x.id == m.id) rest hne]
          exact ih hrest hm'

/-- In a table of store-assigned ids, after erasing the first row with a
given id no row with that id remains. -/
theorem find?_eraseP_of_idsOK :
    ∀ {l : List Movie} (i : Int), idsOK l = true →
      (l.eraseP (fun x => x.id == i)).find? (fun x => x.id == i) = none := by
  intro l
  induction l with
  | nil => intro i _; rfl
  | cons a rest ih =>
      intro i hok
      simp only [idsOK, Bool.and_eq_true, decide_eq_true_eq,
        List.all_eq_true, bne_iff_ne] at hok
      obtain ⟨⟨hpos, hall⟩, hrest⟩ := hok
      by_cases h : (a.id == i) = true
      · rw [List.eraseP_cons_of_pos (p := fun x : Movie => x.id == i) h,
          List.find?_eq_none]
        intro x hx
        have hxa := hall x hx
        simp only [beq_iff_eq] at h ⊢
        exact fun hxi => hxa (hxi.trans h.symm)
      · rw [List.eraseP_cons_of_neg (p := fun x : Movie => x.id == i) h,
          List.find?_cons_of_neg (p := fun x : Movie => x.id == i) _ h]
        exact ih i hrest

/-! ## Claims -/

/-- Claim C1 (code bug evidence): at the concrete failing input — id 7,
which no stored movie has — `update_movie` does NOT signal NotFound: the
not-found branch tests truthiness of the input id (7 is truthy), so the
handler falls through to mutate the missed lookup result and dies on the
unhandled-exception path (`crash`) instead of returning the 404 the spec
requires. -/
theorem update_movie_unknown_id_no_notfound :
    update_movie 7 ({} : MovieUpdate) sEmpty = (.crash, sEmpty) := by decide

/-- Claim C2 (counterexample): with `min_year = 0` supplied, `get_movies`
does not return exactly the rows satisfying every supplied criterion: the
negative-year row `mC` fails the supplied bound `0 ≤ year` yet is
returned, because the truthiness test drops the zero-valued criterion. -/
theorem get_movies_ne_spec_filter :
    get_movies none none (some 0) none [mC] ≠
      [mC].filter (specMatches none none (some 0) none) := by decide

/-- Claim C2 (amended): `get_movies` returns exactly the rows of the
store satisfying the conjunction of the criteria it applies, where a
supplied `title`/`min_year`/`max_year` is applied only when truthy
(nonempty / nonzero) while a supplied `rating` is always applied; within
the rating criterion the two match forms are ORed. -/
theorem get_movies_eq_filter_applied (t : Option String) (r : Option Rat)
    (mi ma : Option Int) (db : List Movie) :
    get_movies t r mi ma db = db.filter (matchesApplied t r mi ma) := by
  simp only [get_movies]
  rw [cond_filter, cond_filter, cond_filter, cond_filter,
    List.filter_filter, List.filter_filter, List.filter_filter]
  congr 1
  funext m
  simp only [matchesApplied]
  cases h1 : pyTruthyStr t <;> cases h2 : r.isSome <;>
    cases h3 : pyTruthyInt mi <;> cases h4 : pyTruthyInt ma <;>
      simp [Bool.and_comm, Bool.and_left_comm, Bool.and_assoc]

/-- Claim C3 (counterexample): `min_year = 0` is NOT applied as a lower
bound: the negative-year row `mA` is returned even though its year fails
`0 ≤ year`. -/
theorem get_movies_min_year_zero_ignored :
    get_movies none none (some 0) none [mA] ≠
      [mA].filter (fun m => decide ((0 : Int) ≤ m.year)) := by decide

/-- Claim C3 (amended): a supplied nonzero `min_year` is applied as an
inclusive lower bound, but a supplied `min_year` of 0 is dropped by the
truthiness test and the whole table is returned unconstrained. -/
theorem get_movies_min_year_truthy (v : Int) (db : List Movie) :
    (v ≠ 0 → get_movies none none (some v) none db =
        db.filter (fun m => decide (v ≤ m.year))) ∧
    get_movies none none (some 0) none db = db := by
  constructor
  · intro hv
    simp [get_movies, pyTruthyStr, pyTruthyInt, hv]
  · simp [get_movies, pyTruthyStr, pyTruthyInt]

/-- Witness for the amended C3 at `min_year = 1990` (applied) and
`min_year = 0` (dropped) over the two-row fixture store. -/
theorem get_movies_min_year_truthy_w :
    (get_movies none none (some 1990) none [m1, m2] =
      [m1, m2].filter (fun m => decide ((1990 : Int) ≤ m.year))) ∧
    get_movies none none (some 0) none [m1, m2] = [m1, m2] :=
  ⟨(get_movies_min_year_truthy 1990 [m1, m2]).1 (by decide),
   (get_movies_min_year_truthy 0 [m1, m2]).2⟩

/-- Claim C4 (counterexample): a supplied `rating = 0` DOES constrain the
result: the rating-5 row `mB` is filtered out, because the source tests
`rating is not None`, not truthiness, for this one parameter. -/
theorem get_movies_rating_zero_constrains :
    get_movies none (some 0) none none [mB] ≠ [mB] := by decide

/-- Claim C4 (amended): the rating criterion's optionality test is an
explicit present/absent check, not a truthiness check: a supplied
`rating = 0` is applied like any other rating value. -/
theorem get_movies_rating_zero_applied (db : List Movie) :
    get_movies none (some 0) none none db =
      db.filter (fun m => ratingMatches m.rating 0) := by
  simp [get_movies, pyTruthyStr, pyTruthyInt]

/-- Claim C5: the rating criterion accepts a row iff the stored rating
equals the supplied value numerically OR their textual renderings are
equal; in particular a row whose rating is 8.5 (`mkRat 17 2`) matches a
supplied rating of 8.5. -/
theorem ratingMatches_two_forms (m : Movie) (v : Rat) :
    (ratingMatches m.rating v = true ↔
      (m.rating = v ∨ toString m.rating = toString v)) ∧
    ratingMatches (mkRat 17 2) (mkRat 17 2) = true := by
  constructor
  · simp [ratingMatches]
  · decide

/-- Claim C6: `create_movie` with a `director_id` matching no director
signals 400 "Invalid director_id" and returns the store unchanged (no
record persisted); with an existing `director_id` it appends exactly one
new record carrying the store-assigned id and the payload's fields, and
echoes that record back. -/
theorem create_movie_spec (p : MovieCreate) (s : Store) :
    (s.directors.find? (fun d => d.id == p.director_id) = none →
        create_movie p s = (.error ⟨400, "Invalid director_id"⟩, s)) ∧
    (∀ d, s.directors.find? (fun d => d.id == p.director_id) = some d →
        ∃ m, create_movie p s =
            (.ok m,
             { s with movies := s.movies ++ [m], nextId := s.nextId + 1 }) ∧
          m.id = s.nextId ∧ m.title = p.title ∧ m.year = p.year ∧
          m.rating = p.rating ∧ m.runtime = p.runtime ∧ m.genre = p.genre ∧
          m.director_id = p.director_id) := by
  constructor
  · intro h
    simp [create_movie, h]
  · intro d hd
    exact ⟨{ id := s.nextId, title := p.title, year := p.year,
             rating := p.rating, runtime := p.runtime, genre := p.genre,
             director_id := p.director_id },
           by simp [create_movie, hd], rfl, rfl, rfl, rfl, rfl, rfl, rfl⟩

/-- Witness for C6: director 99 is unknown to the fixture store (400,
store unchanged); director 1 exists (record persisted and echoed). -/
theorem create_movie_spec_w :
    create_movie pBad sW = (.error ⟨400, "Invalid director_id"⟩, sW) ∧
    (∃ m, create_movie pGood sW =
        (.ok m,
         { sW with movies := sW.movies ++ [m], nextId := sW.nextId + 1 }) ∧
      m.id = sW.nextId ∧ m.title = pGood.title ∧ m.year = pGood.year ∧
      m.rating = pGood.rating ∧ m.runtime = pGood.runtime ∧
      m.genre = pGood.genre ∧ m.director_id = pGood.director_id) :=
  ⟨(create_movie_spec pBad sW).1 (by decide),
   (create_movie_spec pGood sW).2 dir1 (by decide)⟩

/-- Claim C7: updating an existing movie (in a store of store-assigned
ids) succeeds and changes exactly the payload's present fields: each
present field takes the payload value, each absent field keeps its prior
value, and the id is untouched. -/
theorem update_movie_partial_fields (s : Store) (m : Movie) (u : MovieUpdate)
    (hwf : s.WF = true) (hm : m ∈ s.movies) :
    update_movie m.id u s =
      (.ok { id := m.id, title := u.title.getD m.title,
             year := u.year.getD m.year, rating := u.rating.getD m.rating,
             runtime := u.runtime.getD m.runtime,
             genre := u.genre.getD m.genre,
             director_id := u.director_id.getD m.director_id },
       { s with movies := replaceById m.id (applyUpdate u m) s.movies }) := by
  have hok : idsOK s.movies = true := hwf
  have hpos := id_pos_of_idsOK hok hm
  have hfind := find?_self_of_idsOK hok hm
  have hz : (m.id == 0) = false := by
    simp only [beq_eq_false_iff_ne]
    omega
  simp [update_movie, hfind, hz, applyUpdate]

/-- Witness for C7: renaming and re-rating `m1` in the fixture store
changes title and rating only. -/
theorem update_movie_partial_fields_w :
    update_movie m1.id uTR sW =
      (.ok { id := m1.id, title := uTR.title.getD m1.title,
             year := uTR.year.getD m1.year,
             rating := uTR.rating.getD m1.rating,
             runtime := uTR.runtime.getD m1.runtime,
             genre := uTR.genre.getD m1.genre,
             director_id := uTR.director_id.getD m1.director_id },
       { sW with movies := replaceById m1.id (applyUpdate uTR m1) sW.movies }) :=
  update_movie_partial_fields sW m1 uTR (by decide) (by decide)

/-- Claim C8: `delete_movie` with an id matching no row signals 404 and
returns the store unchanged; with a matching row it removes that row,
returns no body (`Unit`), and a subsequent `get_movie` on the same id
signals 404 (given store-assigned ids). -/
theorem delete_movie_spec (s : Store) (movie_id : Int) (hwf : s.WF = true) :
    (s.movies.find? (fun m => m.id == movie_id) = none →
        delete_movie movie_id s = (.error ⟨404, "Movie not found"⟩, s)) ∧
    (∀ m, s.movies.find? (fun m => m.id == movie_id) = some m →
        delete_movie movie_id s =
          (.ok (),
           { s with movies := s.movies.eraseP (fun x => x.id == movie_id) }) ∧
        get_movie movie_id
            { s with movies := s.movies.eraseP (fun x => x.id == movie_id) } =
          .error ⟨404, "Movie not found"⟩) := by
  constructor
  · intro h
    simp [delete_movie, h]
  · intro m hm
    refine ⟨by simp [delete_movie, hm], ?_⟩
    have hok : idsOK s.movies = true := hwf
    have hnone := find?_eraseP_of_idsOK movie_id hok
    simp [get_movie, hnone]

/-- Witness for C8: id 99 is unknown to the fixture store (404, store
unchanged); id 1 is known (row removed, then 404 on re-lookup). -/
theorem delete_movie_spec_w :
    delete_movie 99 sW = (.error ⟨404, "Movie not found"⟩, sW) ∧
    (delete_movie 1 sW =
        (.ok (),
         { sW with movies := sW.movies.eraseP (fun x => x.id == (1 : Int)) }) ∧
      get_movie 1 { sW with movies := sW.movies.eraseP (fun x => x.id == (1 : Int)) } =
        .error ⟨404, "Movie not found"⟩) :=
  ⟨(delete_movie_spec sW 99 (by decide)).1 (by decide),
   (delete_movie_spec sW 1 (by decide)).2 m1 (by decide)⟩

/-- Claim C9: with no criteria supplied, `get_movies` returns the whole
table (the handler is a total function of the store, so no combination of
criteria can produce an error result). -/
theorem get_movies_no_criteria (db : List Movie) :
    get_movies none none none none db = db := by
  simp [get_movies, pyTruthyStr, pyTruthyInt]

/-- Claim C10: an update addressed to id 0 signals 404 "Movie not found"
unconditionally — even when a row with id 0 is present in the store —
because the not-found branch tests the input identifier's truthiness
(`if not movie_id:`), not the lookup result. -/
theorem update_movie_zero_id_notfound (s : Store) (u : MovieUpdate)
    (_h : ∃ m, m ∈ s.movies ∧ m.id = 0) :
    update_movie 0 u s = (.err ⟨404, "Movie not found"⟩, s) := by
  simp [update_movie]

/-- Witness for C10: the fixture store really holds a row with id 0, and
the update still comes back 404. -/
theorem update_movie_zero_id_notfound_w :
    update_movie 0 ({} : MovieUpdate) sZero =
      (.err ⟨404, "Movie not found"⟩, sZero) :=
  update_movie_zero_id_notfound sZero {} ⟨mZero, by decide, by decide⟩
